import Mathlib

/-!
Shallow embedding of `src/repository/commit.rs` from colindean/rustsec-crate.

The file under verification defines `Commit` (the spec's RevisionInfo) and its
operations `from_repo_head` (the spec's `inspect_head`), `raw_signed_bytes`,
`reset` (the spec's `reset_to`) and `ensure_fresh`.  The version-control engine
(git2), the error type (`error.rs`), the signature parser
(`repository/signature.rs`) and the constant `DAYS_UNTIL_STALE`
(`repository/mod.rs`) are outside `src/`; the engine is modelled at its
interface boundary, and the signature parser is modelled from the spec where
noted.  Rust panics (`.unwrap()` on a failing value) are modelled explicitly by
the `Outcome.panicked` constructor so that panic-freedom is a provable
statement.
-/

/-- Models `error::ErrorKind` (defined in `error.rs`, outside `src/`): only the
kinds used at this module's boundary are needed.  `commit.rs` itself only ever
constructs `ErrorKind::Repo` errors. -/
inductive ErrorKind where
  | Repo
  | Parse
deriving DecidableEq, Repr

/-- Models `error::Error` (outside `src/`): an error kind together with the
formatted description produced by the `err!`/`fail!` macros. -/
structure Error where
  kind : ErrorKind
  description : String
deriving DecidableEq, Repr

/-- Result of running a Rust function that may also panic: `ok` and `error`
are the two sides of `Result`, `panicked` models a run that hits a failing
`.unwrap()`. -/
inductive Outcome (α : Type) where
  | ok (val : α)
  | error (e : Error)
  | panicked
deriving DecidableEq, Repr

/-! ## Object ids (git2::Oid boundary)

`git2::Oid` is a 20-byte object id; `oid.to_string()` renders it as lowercase
hex and `Oid::from_str` parses a hex rendering back, failing on a string that
is not a well-formed hex identifier.  Bytes are modelled as `Fin 256`, the id
as the byte list. -/

abbrev Oid := List (Fin 256)

/-- Lowercase hex digit for one nibble, as in `Oid::to_string`. -/
def hexChar (n : Nat) : Char :=
  if n < 10 then Char.ofNat (48 + n) else Char.ofNat (87 + n)

/-- Nibble value of a hex digit character; `none` on a non-hex character. -/
def hexVal (c : Char) : Option Nat :=
  if 48 ≤ c.toNat ∧ c.toNat ≤ 57 then some (c.toNat - 48)
  else if 97 ≤ c.toNat ∧ c.toNat ≤ 102 then some (c.toNat - 87)
  else none

/-- The two hex digits of one byte. -/
def byteHex (b : Fin 256) : List Char :=
  [hexChar (b.val / 16), hexChar (b.val % 16)]

/-- Models `oid.to_string()`: the lowercase hex rendering of the id. -/
def oidToString (oid : Oid) : String :=
  ⟨oid.flatMap byteHex⟩

/-- Parse a hex digit sequence pairwise into bytes; `none` if some character
is not a hex digit or the sequence has odd length. -/
def hexPairs : List Char → Option (List (Fin 256))
  | [] => some []
  | [_] => none
  | c1 :: c2 :: rest =>
    match hexVal c1, hexVal c2, hexPairs rest with
    | some h, some l, some bs =>
      if hlt : 16 * h + l < 256 then some ((⟨16 * h + l, hlt⟩ : Fin 256) :: bs)
      else none
    | _, _, _ => none

/-- Models `git2::Oid::from_str`: decodes a hex rendering of an object id,
failing with a decoding error on input that is not a well-formed identifier. -/
def Oid.fromStr (s : String) : Except Error Oid :=
  match hexPairs s.data with
  | some bs => Except.ok bs
  | none => Except.error ⟨ErrorKind.Repo, "unable to parse OID: " ++ s⟩

/-! ## The engine boundary (git2 collaborator) -/

/-- Metadata of a loaded commit object: `commit.author().to_string()`,
`commit.summary()` (an `Option`: git2 yields `None` when the message has no
summary line) and `commit.time().seconds()`. -/
structure CommitData where
  author : String
  summary : Option String
  time : Int
deriving DecidableEq, Repr

/-- A loaded git object, tagged by its kind; only commit objects carry the
data read by `commit.rs`. -/
inductive GitObject where
  | commit (data : CommitData)
  | tree
  | blob
  | tag
deriving DecidableEq, Repr

inductive ObjectType where
  | commit
  | tree
  | blob
  | tag
deriving DecidableEq, Repr

def GitObject.otype : GitObject → ObjectType
  | .commit _ => .commit
  | .tree => .tree
  | .blob => .blob
  | .tag => .tag

/-- Models `git2::Object::as_commit()`: `some` exactly on commit objects. -/
def GitObject.as_commit : GitObject → Option CommitData
  | .commit d => some d
  | _ => none

/-- The repository handle together with the state of the git2 engine behind
it, at the interface boundary used by `commit.rs`:
`headTarget` models `repo.repo.head()?` (the `Except`) followed by
`head.target()` (the `Option`); `objects` is the object store behind
`find_object`; `extractSignature` models `repo.repo.extract_signature(&oid,
None)`, whose `Err` covers both "no signature" and any other failed
extraction attempt; `hardReset` models `repo.repo.reset(_, Hard, None)` on
the object with the given id. -/
structure Repository where
  path : String
  headTarget : Except Error (Option Oid)
  objects : Oid → Option GitObject
  extractSignature : Oid → Except Error (List Nat × List Nat)
  hardReset : Oid → Except Error Unit

/-- Models `git2::Repository::find_object(oid, kind)`: the lookup fails when
the object is absent or does not have the requested kind. -/
def findObject (repo : Repository) (oid : Oid) (kind : Option ObjectType) :
    Except Error GitObject :=
  match repo.objects oid with
  | none => Except.error ⟨ErrorKind.Repo, "object not found"⟩
  | some obj =>
    match kind with
    | none => Except.ok obj
    | some k =>
      if obj.otype = k then Except.ok obj
      else Except.error ⟨ErrorKind.Repo, "object not found"⟩

/-! ## Signature (repository/signature.rs boundary) -/

/-- The byte prefix identifying the signature container format (an ASCII
armored signature header, as produced by the signing tool). -/
def pgpHeader : List Nat :=
  "-----BEGIN PGP SIGNATURE-----".data.map Char.toNat

/-- Models `repository::signature::Signature`: the raw signature payload
exactly as extracted, no re-encoding. -/
structure Signature where
  raw_bytes : List Nat
deriving DecidableEq, Repr

/-- Modelled from the spec: `Signature::new` (`repository/signature.rs`, a
file of this repository absent from `src/`).  Per the spec's signature-parser
contract it is a pure structural check that rejects zero-length input and any
byte sequence shorter than the minimum valid container size, identifies the
format from the byte prefix, and stores the raw bytes unchanged. -/
def Signature.new (raw : List Nat) : Except Error Signature :=
  if pgpHeader.isPrefixOf raw then Except.ok ⟨raw⟩
  else Except.error ⟨ErrorKind.Parse, "malformed signature"⟩

/-! ## Commit (the RevisionInfo of the spec) -/

/-- `Commit` from `commit.rs`: the immutable snapshot of the head revision.
`time` is the commit time in seconds since the UNIX epoch (the
`DateTime<Utc>` built from `commit.time().seconds()`). -/
structure Commit where
  commit_id : String
  author : String
  summary : String
  time : Int
  signature : Option Signature
  signed_data : Option (List Nat)
deriving DecidableEq, Repr

/-- `Commit::from_repo_head`, step for step: resolve head, render the id,
load the object constrained to kind Commit, `as_commit().unwrap()` (a
potential panic, modelled by `Outcome.panicked`), read author and summary
(failing when the summary is absent), then attempt signature extraction:
an `Ok` from the engine runs `Signature::new` (whose error propagates via
`?`), while any `Err` is folded into `(None, None)`. -/
def Commit.from_repo_head (repo : Repository) : Outcome Commit :=
  match repo.headTarget with
  | Except.error e => Outcome.error e
  | Except.ok none =>
    Outcome.error ⟨ErrorKind.Repo, "no ref target for: " ++ repo.path⟩
  | Except.ok (some oid) =>
    match findObject repo oid (some ObjectType.commit) with
    | Except.error e => Outcome.error e
    | Except.ok commit_object =>
      match commit_object.as_commit with
      | none => Outcome.panicked
      | some commit =>
        match commit.summary with
        | none =>
          Outcome.error ⟨ErrorKind.Repo, "no commit summary for " ++ oidToString oid⟩
        | some summary =>
          match repo.extractSignature oid with
          | Except.ok (sig, data) =>
            match Signature.new sig with
            | Except.error e => Outcome.error e
            | Except.ok s =>
              Outcome.ok ⟨oidToString oid, commit.author, summary, commit.time,
                some s, some data⟩
          | Except.error _ =>
            Outcome.ok ⟨oidToString oid, commit.author, summary, commit.time,
              none, none⟩

/-- `Commit::raw_signed_bytes`: `self.signed_data.as_ref().map(|b| b.as_ref())`,
i.e. exactly the stored optional byte sequence. -/
def Commit.raw_signed_bytes (c : Commit) : Option (List Nat) :=
  c.signed_data

/-- `Commit::reset`: re-parse `self.commit_id` with
`git2::Oid::from_str(..).unwrap()` (a potential panic, modelled by
`Outcome.panicked`), load the object constrained to kind Commit, then hard
reset; engine failures propagate via `?`. -/
def Commit.reset (c : Commit) (repo : Repository) : Outcome Unit :=
  match Oid.fromStr c.commit_id with
  | Except.error _ => Outcome.panicked
  | Except.ok oid =>
    match findObject repo oid (some ObjectType.commit) with
    | Except.error e => Outcome.error e
    | Except.ok _commit_object =>
      match repo.hardReset oid with
      | Except.error e => Outcome.error e
      | Except.ok _ => Outcome.ok ()

/-- The description string of the staleness failure: the `fail!` message of
`ensure_fresh`, carrying both the configured maximum age and the offending
last-commit time. -/
def staleMsg (days : Nat) (time : Int) : String :=
  "stale repo: not updated for " ++ toString days ++
    " days (last commit: " ++ toString time ++ ")"

/-- `Commit::ensure_fresh`.  In the source the maximum age is the crate
constant `DAYS_UNTIL_STALE` (defined in `repository/mod.rs`, outside `src/`)
and the current time is read internally via `Utc::now()`; here `days` stands
for that constant and `utcNow` for the value the internal clock read returns,
in seconds since the UNIX epoch.  `Duration::days(n)` is `n * 86400` seconds. -/
def Commit.ensure_fresh (c : Commit) (days : Nat) (utcNow : Int) :
    Except Error Unit :=
  let fresh_after_date : Int := utcNow - (days : Int) * 86400
  if c.time > fresh_after_date then Except.ok ()
  else Except.error ⟨ErrorKind.Repo, staleMsg days c.time⟩

/-! ## Concrete engine states used by witnesses -/

def sampleOid : Oid := [(171 : Fin 256), (205 : Fin 256)]

def sampleData : CommitData :=
  ⟨"Alice <alice@example.com>", some "Update advisory DB", 1000⟩

def sampleObjects : Oid → Option GitObject :=
  fun o => if o = sampleOid then some (GitObject.commit sampleData) else none

/-- A repository whose head commit carries no detached signature (the
extraction attempt fails). -/
def sampleRepo : Repository :=
  { path := "/tmp/advisory-db"
    headTarget := Except.ok (some sampleOid)
    objects := sampleObjects
    extractSignature := fun _ =>
      Except.error ⟨ErrorKind.Repo, "signature extraction failed"⟩
    hardReset := fun _ => Except.ok () }

/-- The snapshot `from_repo_head` builds from `sampleRepo`. -/
def sampleCommit : Commit :=
  ⟨"abcd", "Alice <alice@example.com>", "Update advisory DB", 1000, none, none⟩

/-- A snapshot whose `commit_id` is not a well-formed object identifier. -/
def badCommit : Commit :=
  ⟨"not-a-hex-id", "Eve <eve@example.com>", "subject", 0, none, none⟩

/-- A snapshot differing from `sampleCommit` in every field except `time`. -/
def sampleCommitOther : Commit :=
  ⟨"ffff", "Bob <bob@example.com>", "Another subject", 1000, none, none⟩

/-- The snapshot built from a head whose extracted signature is well-formed. -/
def signedCommit : Commit :=
  ⟨"abcd", "Alice <alice@example.com>", "Update advisory DB", 1000,
    some ⟨pgpHeader⟩, some [1, 2, 3]⟩

/-- Commit metadata whose summary line is absent. -/
def noSummaryData : CommitData :=
  ⟨"Alice <alice@example.com>", none, 1000⟩

def noSummaryObjects : Oid → Option GitObject :=
  fun o => if o = sampleOid then some (GitObject.commit noSummaryData) else none

example : Commit.from_repo_head sampleRepo = Outcome.ok sampleCommit := by rfl

deriving instance DecidableEq for Except

/-! ## Helper lemmas -/

theorem hexVal_hexChar : ∀ n : Fin 16, hexVal (hexChar n.val) = some n.val := by
  decide

theorem hexVal_hexChar_lt (n : Nat) (h : n < 16) : hexVal (hexChar n) = some n :=
  hexVal_hexChar ⟨n, h⟩

theorem hexPairs_flatMap (l : List (Fin 256)) :
    hexPairs (l.flatMap byteHex) = some l := by
  induction l with
  | nil => rfl
  | cons b rest ih =>
    have hbv := b.isLt
    have h1 : hexVal (hexChar (b.val / 16)) = some (b.val / 16) :=
      hexVal_hexChar_lt _ (by omega)
    have h2 : hexVal (hexChar (b.val % 16)) = some (b.val % 16) :=
      hexVal_hexChar_lt _ (by omega)
    show hexPairs
        (hexChar (b.val / 16) :: hexChar (b.val % 16) :: rest.flatMap byteHex) =
      some (b :: rest)
    simp only [hexPairs, h1, h2, ih]
    rw [dif_pos (by omega)]
    simp only [Option.some.injEq, List.cons.injEq]
    refine ⟨Fin.ext ?_, trivial⟩
    show 16 * (b.val / 16) + b.val % 16 = b.val
    omega

/-- Round trip at the oid boundary: `Oid::from_str` re-parses every rendering
produced by `oid.to_string()`. -/
theorem fromStr_oidToString (oid : Oid) :
    Oid.fromStr (oidToString oid) = Except.ok oid := by
  unfold Oid.fromStr oidToString
  rw [show (String.mk (oid.flatMap byteHex)).data = oid.flatMap byteHex from rfl,
    hexPairs_flatMap]

/-- A kind-constrained lookup only ever returns an object of that kind, so a
commit-constrained lookup yields a commit object. -/
theorem findObject_commit_shape (repo : Repository) (oid : Oid)
    (obj : GitObject)
    (h : findObject repo oid (some ObjectType.commit) = Except.ok obj) :
    ∃ d, obj = GitObject.commit d := by
  cases hobj : repo.objects oid with
  | none => simp [findObject, hobj] at h
  | some obj' =>
    simp only [findObject, hobj] at h
    by_cases ht : obj'.otype = ObjectType.commit
    · rw [if_pos ht] at h
      injection h with h2
      cases obj' with
      | commit d => exact ⟨d, h2.symm⟩
      | tree => simp [GitObject.otype] at ht
      | blob => simp [GitObject.otype] at ht
      | tag => simp [GitObject.otype] at ht
    · rw [if_neg ht] at h
      cases h

/-- Inversion of a successful `from_repo_head` run: the head resolved to an
oid, a commit object was loaded, its summary was present, and the snapshot's
fields come either from a failed extraction attempt (no signature) or from a
successfully parsed extracted signature. -/
theorem from_repo_head_ok_cases (repo : Repository) (c : Commit)
    (h : Commit.from_repo_head repo = Outcome.ok c) :
    ∃ oid cd s,
      repo.headTarget = Except.ok (some oid) ∧
      findObject repo oid (some ObjectType.commit) =
        Except.ok (GitObject.commit cd) ∧
      cd.summary = some s ∧
      ((∃ e, repo.extractSignature oid = Except.error e ∧
          c = ⟨oidToString oid, cd.author, s, cd.time, none, none⟩) ∨
        (∃ sig data sg, repo.extractSignature oid = Except.ok (sig, data) ∧
          Signature.new sig = Except.ok sg ∧
          c = ⟨oidToString oid, cd.author, s, cd.time, some sg, some data⟩)) := by
  unfold Commit.from_repo_head at h
  cases hh : repo.headTarget with
  | error e => simp [hh] at h
  | ok otgt =>
    cases otgt with
    | none => simp [hh] at h
    | some oid =>
      cases hf : findObject repo oid (some ObjectType.commit) with
      | error e => simp [hh, hf] at h
      | ok obj =>
        obtain ⟨cd, rfl⟩ := findObject_commit_shape repo oid obj hf
        cases hs : cd.summary with
        | none => simp [hh, hf, GitObject.as_commit, hs] at h
        | some s =>
          cases he : repo.extractSignature oid with
          | error e =>
            simp only [hh, hf, GitObject.as_commit, hs, he] at h
            cases h
            exact ⟨oid, cd, s, rfl, hf, hs, Or.inl ⟨e, he, rfl⟩⟩
          | ok sd =>
            obtain ⟨sig, data⟩ := sd
            cases hn : Signature.new sig with
            | error e => simp [hh, hf, GitObject.as_commit, hs, he, hn] at h
            | ok sg =>
              simp only [hh, hf, GitObject.as_commit, hs, he, hn] at h
              cases h
              exact ⟨oid, cd, s, rfl, hf, hs, Or.inr ⟨sig, data, sg, he, hn, rfl⟩⟩

/-- `reset` cannot hit its `unwrap` when `commit_id` re-parses. -/
theorem reset_ne_panicked_of_parse (c : Commit) (repo : Repository) (oid : Oid)
    (h : Oid.fromStr c.commit_id = Except.ok oid) :
    Commit.reset c repo ≠ Outcome.panicked := by
  unfold Commit.reset
  simp only [h]
  cases hf : findObject repo oid (some ObjectType.commit) with
  | error e => simp
  | ok obj => cases hr : repo.hardReset oid <;> simp

/-- Computation of `from_repo_head` when the extraction attempt fails: the
failure is folded into an absent signature, not an error. -/
theorem from_repo_head_extract_error (path : String) (oid : Oid)
    (objects : Oid → Option GitObject) (hr : Oid → Except Error Unit)
    (d : CommitData) (s : String) (e : Error)
    (hobj : objects oid = some (GitObject.commit d))
    (hsum : d.summary = some s) :
    Commit.from_repo_head
        ⟨path, Except.ok (some oid), objects, fun _ => Except.error e, hr⟩ =
      Outcome.ok ⟨oidToString oid, d.author, s, d.time, none, none⟩ := by
  simp [Commit.from_repo_head, findObject, hobj, hsum, GitObject.otype,
    GitObject.as_commit]

/-- Computation of `from_repo_head` when extraction returns bytes: the result
is decided by `Signature::new` on the extracted signature bytes. -/
theorem from_repo_head_extract_ok (path : String) (oid : Oid)
    (objects : Oid → Option GitObject) (hr : Oid → Except Error Unit)
    (d : CommitData) (s : String) (sig data : List Nat)
    (hobj : objects oid = some (GitObject.commit d))
    (hsum : d.summary = some s) :
    Commit.from_repo_head
        ⟨path, Except.ok (some oid), objects, fun _ => Except.ok (sig, data), hr⟩ =
      match Signature.new sig with
      | Except.error e => Outcome.error e
      | Except.ok sg =>
        Outcome.ok ⟨oidToString oid, d.author, s, d.time, some sg, some data⟩ := by
  cases hn : Signature.new sig with
  | error e =>
    simp [Commit.from_repo_head, findObject, hobj, hsum, hn, GitObject.otype,
      GitObject.as_commit]
  | ok sg =>
    simp [Commit.from_repo_head, findObject, hobj, hsum, hn, GitObject.otype,
      GitObject.as_commit]

/-- `Signature::new` rejects any input shorter than the container header. -/
theorem new_error_of_short (raw : List Nat)
    (h : raw.length < pgpHeader.length) :
    Signature.new raw = Except.error ⟨ErrorKind.Parse, "malformed signature"⟩ := by
  have hnp : ¬ (pgpHeader.isPrefixOf raw = true) := by
    intro hpre
    have := List.IsPrefix.length_le (List.isPrefixOf_iff_prefix.mp hpre)
    omega
  unfold Signature.new
  rw [if_neg hnp]

/-! ## Claim theorems -/

/-- C1: every `Commit` successfully returned by `from_repo_head`
(`inspect_head`) has the `signature` field present if and only if the
`signed_data` field is present; no snapshot with one present and the other
absent is produced through the public contract. -/
theorem from_repo_head_signature_iff_signed_data (repo : Repository)
    (c : Commit) (h : Commit.from_repo_head repo = Outcome.ok c) :
    c.signature.isSome = c.signed_data.isSome := by
  obtain ⟨oid, cd, s, -, -, -, hcase⟩ := from_repo_head_ok_cases repo c h
  rcases hcase with ⟨e, -, rfl⟩ | ⟨sig, data, sg, -, -, rfl⟩ <;> rfl

theorem from_repo_head_signature_iff_signed_data_witness :
    sampleCommit.signature.isSome = sampleCommit.signed_data.isSome :=
  from_repo_head_signature_iff_signed_data sampleRepo sampleCommit rfl

/-- C2: `ensure_fresh` succeeds exactly when the commit time is strictly
greater than the clock reading minus the maximum age in days (a revision
exactly that old is stale, the boundary being exclusive on the fresh side),
and otherwise fails with the staleness error whose payload carries both the
configured maximum age and the offending last-commit time. -/
theorem ensure_fresh_boundary (c : Commit) (days : Nat) (now : Int) :
    (Commit.ensure_fresh c days now = Except.ok () ↔
      c.time > now - (days : Int) * 86400) ∧
    (¬ c.time > now - (days : Int) * 86400 →
      Commit.ensure_fresh c days now =
        Except.error ⟨ErrorKind.Repo, staleMsg days c.time⟩) := by
  constructor
  · by_cases hgt : c.time > now - (days : Int) * 86400
    · simp [Commit.ensure_fresh, hgt]
    · simp [Commit.ensure_fresh, hgt]
  · intro hle
    simp [Commit.ensure_fresh, hle]

theorem ensure_fresh_boundary_witness :
    Commit.ensure_fresh sampleCommit 1 1000 = Except.ok () ∧
    Commit.ensure_fresh sampleCommit 1 1000000 =
      Except.error ⟨ErrorKind.Repo, staleMsg 1 1000⟩ :=
  ⟨(ensure_fresh_boundary sampleCommit 1 1000).1.mpr (by decide),
   (ensure_fresh_boundary sampleCommit 1 1000000).2 (by decide)⟩

/-- C3: a failed signature-extraction attempt yields
`signature = None, signed_data = None` rather than an error, but once
extraction has returned signature bytes, a `Signature` construction failure
is surfaced as an error from `from_repo_head`, never treated as absence. -/
theorem from_repo_head_signature_error_handling (path : String) (oid : Oid)
    (objects : Oid → Option GitObject) (hr : Oid → Except Error Unit)
    (d : CommitData) (s : String)
    (hobj : objects oid = some (GitObject.commit d))
    (hsum : d.summary = some s) :
    (∀ e,
      Commit.from_repo_head
          ⟨path, Except.ok (some oid), objects, fun _ => Except.error e, hr⟩ =
        Outcome.ok ⟨oidToString oid, d.author, s, d.time, none, none⟩) ∧
    (∀ sig data e, Signature.new sig = Except.error e →
      Commit.from_repo_head
          ⟨path, Except.ok (some oid), objects,
            fun _ => Except.ok (sig, data), hr⟩ =
        Outcome.error e) := by
  constructor
  · intro e
    exact from_repo_head_extract_error path oid objects hr d s e hobj hsum
  · intro sig data e hsig
    rw [from_repo_head_extract_ok path oid objects hr d s sig data hobj hsum,
      hsig]

theorem from_repo_head_signature_error_handling_witness :
    Commit.from_repo_head
        ⟨"/tmp/advisory-db", Except.ok (some sampleOid), sampleObjects,
          fun _ => Except.ok ([], []), fun _ => Except.ok ()⟩ =
      Outcome.error ⟨ErrorKind.Parse, "malformed signature"⟩ :=
  (from_repo_head_signature_error_handling "/tmp/advisory-db" sampleOid
      sampleObjects (fun _ => Except.ok ()) sampleData "Update advisory DB"
      rfl rfl).2 [] [] ⟨ErrorKind.Parse, "malformed signature"⟩ rfl

/-- C4 counterexample: on a `commit_id` that is not a well-formed identifier
for the repository's addressing scheme, `reset` does not return a typed
decoding error — it hits the `unwrap` on `Oid::from_str` and panics. -/
theorem reset_panics_on_malformed_id :
    Commit.reset badCommit sampleRepo = Outcome.panicked := by rfl

/-- C4 amended: when `commit_id` is a well-formed identifier (it re-parses
under `Oid::from_str`, as holds for every id produced by `from_repo_head`),
`reset` never panics; every failure is returned as a typed error value.  On a
malformed identifier the `unwrap` in `reset` panics instead of returning a
decoding error. -/
theorem reset_no_panic_on_wellformed_id (c : Commit) (repo : Repository)
    (oid : Oid) (h : Oid.fromStr c.commit_id = Except.ok oid) :
    Commit.reset c repo ≠ Outcome.panicked :=
  reset_ne_panicked_of_parse c repo oid h

theorem reset_no_panic_on_wellformed_id_witness :
    Commit.reset sampleCommit sampleRepo ≠ Outcome.panicked :=
  reset_no_panic_on_wellformed_id sampleCommit sampleRepo sampleOid (by rfl)

/-- C5 counterexample: `ensure_fresh` is not independent of the internally
read clock: for one and the same snapshot and maximum age, the verdict at
clock reading 1000 differs from the verdict at clock reading 1000000000, so
the evaluator's result is not determined by the snapshot and maximum age
alone — `now` is read internally via `Utc::now()`, not taken as an input. -/
theorem ensure_fresh_clock_dependent :
    Commit.ensure_fresh sampleCommit 90 1000 = Except.ok () ∧
    Commit.ensure_fresh sampleCommit 90 1000000000 =
      Except.error ⟨ErrorKind.Repo, staleMsg 90 1000⟩ ∧
    Commit.ensure_fresh sampleCommit 90 1000 ≠
      Commit.ensure_fresh sampleCommit 90 1000000000 := by
  refine ⟨rfl, rfl, ?_⟩
  intro hcontra
  exact Except.noConfusion hcontra

/-- C5 amended: `ensure_fresh` reads the clock internally (`Utc::now()`) and
uses the crate constant `DAYS_UNTIL_STALE`; for a fixed value of that
internal clock read, its verdict is a deterministic function of the
snapshot's timestamp — two evaluations with the same clock reading on
snapshots with equal timestamps agree — but evaluations at different clock
readings may differ. -/
theorem ensure_fresh_deterministic_given_clock (c c2 : Commit) (days : Nat)
    (utcNow : Int) (h : c.time = c2.time) :
    Commit.ensure_fresh c days utcNow = Commit.ensure_fresh c2 days utcNow := by
  unfold Commit.ensure_fresh
  rw [h]

theorem ensure_fresh_deterministic_given_clock_witness :
    Commit.ensure_fresh sampleCommit 90 1000 =
      Commit.ensure_fresh sampleCommitOther 90 1000 :=
  ensure_fresh_deterministic_given_clock sampleCommit sampleCommitOther 90 1000
    rfl

/-- C6: `raw_signed_bytes` returns `None` for a snapshot built from a head
revision with no detached signature, and otherwise returns exactly the byte
sequence extracted by the engine, byte for byte, with no re-encoding or
trimming. -/
theorem raw_signed_bytes_exact (path : String) (oid : Oid)
    (objects : Oid → Option GitObject) (hr : Oid → Except Error Unit)
    (d : CommitData) (s : String)
    (hobj : objects oid = some (GitObject.commit d))
    (hsum : d.summary = some s) :
    (∀ e c,
      Commit.from_repo_head
          ⟨path, Except.ok (some oid), objects, fun _ => Except.error e, hr⟩ =
        Outcome.ok c →
      c.raw_signed_bytes = none) ∧
    (∀ sig data sg c, Signature.new sig = Except.ok sg →
      Commit.from_repo_head
          ⟨path, Except.ok (some oid), objects,
            fun _ => Except.ok (sig, data), hr⟩ =
        Outcome.ok c →
      c.raw_signed_bytes = some data) := by
  constructor
  · intro e c h
    rw [from_repo_head_extract_error path oid objects hr d s e hobj hsum] at h
    injection h with h2
    rw [← h2]
    rfl
  · intro sig data sg c hsig h
    rw [from_repo_head_extract_ok path oid objects hr d s sig data hobj hsum,
      hsig] at h
    injection h with h2
    rw [← h2]
    rfl

theorem raw_signed_bytes_exact_witness :
    signedCommit.raw_signed_bytes = some [1, 2, 3] :=
  (raw_signed_bytes_exact "/tmp/advisory-db" sampleOid sampleObjects
      (fun _ => Except.ok ()) sampleData "Update advisory DB" rfl rfl).2
    pgpHeader [1, 2, 3] ⟨pgpHeader⟩ signedCommit (by decide) (by decide)

/-- C7: when the head revision's summary is absent, `from_repo_head` fails
with the repository-structural error whose payload references the revision
id, and the result is the same for every possible signature-extraction
behavior `es` — the failure happens before any signature extraction is
attempted. -/
theorem missing_summary_fails_before_extraction (path : String) (oid : Oid)
    (objects : Oid → Option GitObject)
    (es : Oid → Except Error (List Nat × List Nat))
    (hr : Oid → Except Error Unit) (d : CommitData)
    (hobj : objects oid = some (GitObject.commit d))
    (hsum : d.summary = none) :
    Commit.from_repo_head ⟨path, Except.ok (some oid), objects, es, hr⟩ =
      Outcome.error
        ⟨ErrorKind.Repo, "no commit summary for " ++ oidToString oid⟩ := by
  simp [Commit.from_repo_head, findObject, hobj, hsum, GitObject.otype,
    GitObject.as_commit]

theorem missing_summary_fails_before_extraction_witness :
    Commit.from_repo_head
        ⟨"/tmp/advisory-db", Except.ok (some sampleOid), noSummaryObjects,
          fun _ => Except.ok (pgpHeader, [1, 2, 3]), fun _ => Except.ok ()⟩ =
      Outcome.error
        ⟨ErrorKind.Repo, "no commit summary for " ++ oidToString sampleOid⟩ :=
  missing_summary_fails_before_extraction "/tmp/advisory-db" sampleOid
    noSummaryObjects (fun _ => Except.ok (pgpHeader, [1, 2, 3]))
    (fun _ => Except.ok ()) noSummaryData rfl rfl

/-- C8: the signature parser fails for zero-length input, fails for any byte
sequence shorter than the minimum valid container size, and succeeds on every
well-formed signature blob, round-tripping `raw_bytes` unchanged. -/
theorem signature_parse_contract (raw : List Nat) :
    (raw.length = 0 →
      Signature.new raw =
        Except.error ⟨ErrorKind.Parse, "malformed signature"⟩) ∧
    (raw.length < pgpHeader.length →
      Signature.new raw =
        Except.error ⟨ErrorKind.Parse, "malformed signature"⟩) ∧
    (pgpHeader.isPrefixOf raw = true →
      ∃ sg, Signature.new raw = Except.ok sg ∧ sg.raw_bytes = raw) := by
  refine ⟨?_, fun h => new_error_of_short raw h, ?_⟩
  · intro h0
    refine new_error_of_short raw ?_
    rw [h0]
    decide
  · intro hpre
    refine ⟨⟨raw⟩, ?_, rfl⟩
    unfold Signature.new
    rw [if_pos hpre]

theorem signature_parse_contract_witness :
    Signature.new [] = Except.error ⟨ErrorKind.Parse, "malformed signature"⟩ ∧
    (∃ sg, Signature.new pgpHeader = Except.ok sg ∧
      sg.raw_bytes = pgpHeader) :=
  ⟨(signature_parse_contract []).1 rfl,
   (signature_parse_contract pgpHeader).2.2 (by decide)⟩

/-- C9: the unchecked `as_commit().unwrap()` in `from_repo_head` cannot
panic: the object is loaded with the kind constrained to Commit, so any
successfully loaded object at that point is a commit object. -/
theorem from_repo_head_never_panics (repo : Repository) :
    Commit.from_repo_head repo ≠ Outcome.panicked := by
  intro h
  unfold Commit.from_repo_head at h
  cases hh : repo.headTarget with
  | error e => simp [hh] at h
  | ok otgt =>
    cases otgt with
    | none => simp [hh] at h
    | some oid =>
      cases hf : findObject repo oid (some ObjectType.commit) with
      | error e => simp [hh, hf] at h
      | ok obj =>
        obtain ⟨cd, rfl⟩ := findObject_commit_shape repo oid obj hf
        cases hs : cd.summary with
        | none => simp [hh, hf, GitObject.as_commit, hs] at h
        | some s =>
          cases he : repo.extractSignature oid with
          | error e => simp [hh, hf, GitObject.as_commit, hs, he] at h
          | ok sd =>
            obtain ⟨sig, data⟩ := sd
            cases hn : Signature.new sig with
            | error e => simp [hh, hf, GitObject.as_commit, hs, he, hn] at h
            | ok sg => simp [hh, hf, GitObject.as_commit, hs, he, hn] at h

theorem from_repo_head_never_panics_witness :
    Commit.from_repo_head sampleRepo ≠ Outcome.panicked :=
  from_repo_head_never_panics sampleRepo

/-- C10: every snapshot constructed by `from_repo_head` stores as `commit_id`
the rendering `oid.to_string()` of a valid object id, so re-parsing it with
`Oid::from_str` in `reset` always succeeds and the `unwrap` there is
unreachable as a panic. -/
theorem commit_id_reparse_safe (repo : Repository) (c : Commit)
    (h : Commit.from_repo_head repo = Outcome.ok c) :
    (∃ oid, Oid.fromStr c.commit_id = Except.ok oid) ∧
    ∀ repo2, Commit.reset c repo2 ≠ Outcome.panicked := by
  obtain ⟨oid, cd, s, -, -, -, hcase⟩ := from_repo_head_ok_cases repo c h
  have hid : c.commit_id = oidToString oid := by
    rcases hcase with ⟨e, -, rfl⟩ | ⟨sig, data, sg, -, -, rfl⟩ <;> rfl
  have hparse : Oid.fromStr c.commit_id = Except.ok oid := by
    rw [hid]
    exact fromStr_oidToString oid
  exact ⟨⟨oid, hparse⟩,
    fun repo2 => reset_ne_panicked_of_parse c repo2 oid hparse⟩

theorem commit_id_reparse_safe_witness :
    (∃ oid, Oid.fromStr sampleCommit.commit_id = Except.ok oid) ∧
    Commit.reset sampleCommit sampleRepo ≠ Outcome.panicked :=
  ⟨(commit_id_reparse_safe sampleRepo sampleCommit rfl).1,
   (commit_id_reparse_safe sampleRepo sampleCommit rfl).2 sampleRepo⟩
